import Mathlib

/-!
Verification of the render-job orchestration layer (`modal_app/app.py`).

The Python source is shallowly embedded: every stage of the render pipeline
becomes an executable Lean function, external effects (network fetch, the
readiness of the local Next.js port, the render subprocess exit, the storage
copy) are parameters gathered in an `Env` record, and the worker's observable
behaviour is a list of `Event`s (callback invocations, subprocess start/kill,
artifact persistence) plus an `Except` result mirroring Python return/raise.
-/

namespace EtherealFlame

/-- Python truthiness of an optional string argument (`None` and `""` are falsy). -/
def optTruthy (o : Option String) : Bool :=
  !(o.getD "").isEmpty

/-- Whether `pat` matches the leading characters of `l` (helper for substring tests). -/
def leadMatch : List Char → List Char → Bool
  | [], _ => true
  | _ :: _, [] => false
  | a :: as, b :: bs => (a == b) && leadMatch as bs

/-- Whether `pat` occurs as a contiguous run inside `l` (helper for substring tests). -/
def hasSub (pat : List Char) : List Char → Bool
  | [] => leadMatch pat []
  | c :: rest => leadMatch pat (c :: rest) || hasSub pat rest

/-- Python's `needle in hay` substring test on strings. -/
def strContains (needle hay : String) : Bool :=
  hasSub needle.toList hay.toList

/-- Split a character list on `/` (helper for the path-component computation). -/
def splitSlashAux : List Char → List Char → List (List Char)
  | [], acc => [acc.reverse]
  | c :: rest, acc =>
    if c = '/' then acc.reverse :: splitSlashAux rest []
    else splitSlashAux rest (c :: acc)

/-- The final path component, as `pathlib.Path(p).name` computes it for the
URL-shaped inputs this app passes (split on `/`, last non-empty component). -/
def lastComponent (p : String) : String :=
  ((((splitSlashAux p.toList []).map String.mk).filter (fun s => !s.isEmpty)).getLast?).getD ""

/-- Model of `pathlib.Path(p).suffix`: the extension of the final component, i.e. the
run from the last dot when that dot is neither the first nor the last
character of the component, otherwise the empty string. -/
def path_suffix (p : String) : String :=
  let name := lastComponent p
  let cs := name.toList
  match cs.reverse.findIdx? (fun c => c == '.') with
  | none => ""
  | some j =>
    let i := cs.length - 1 - j
    if 0 < i && i < cs.length - 1 then String.mk (cs.drop i) else ""

/-- Python `s[-n:]`: the last `n` characters of `s` (all of `s` when shorter). -/
def lastChars (n : Nat) (s : String) : String :=
  String.mk (s.toList.drop (s.toList.length - n))

/-- Outcome of one external side effect (network fetch, base64 decode, file copy):
either it succeeds or it raises with a message. -/
inductive StepOutcome where
  | ok
  | err (msg : String)
deriving DecidableEq

/-- Outcome of the `subprocess.run` render invocation: the process exited with a
code and captured streams, or `TimeoutExpired` was raised. -/
inductive RenderOutcome where
  | exited (code : Int) (stdout stderr : String)
  | timedOut (msg : String)
deriving DecidableEq

/-- External-world behaviour a single pipeline run observes. `ready k` tells
whether the Next.js port answers on poll attempt `k`. -/
structure Env where
  audio : StepOutcome
  ready : Nat → Bool
  render : RenderOutcome
  copy : StepOutcome

/-- Model of `_prepare_audio`: download (URL branch) or decode (base64 branch) audio into
`/tmp/audio/<job_id><ext>`; with neither source it raises `ValueError`. -/
def _prepare_audio (o : StepOutcome) (audio_url audio_base64 : Option String)
    (job_id : String) : Except String String :=
  if optTruthy audio_url then
    let url := audio_url.getD ""
    let ext := if (path_suffix url).isEmpty then ".mp3" else path_suffix url
    match o with
    | .ok => .ok ("/tmp/audio/" ++ job_id ++ ext)
    | .err m => .error m
  else if optTruthy audio_base64 then
    match o with
    | .ok => .ok ("/tmp/audio/" ++ job_id ++ ".mp3")
    | .err m => .error m
  else
    .error "Either audio_url or audio_base64 must be provided"

/-- Error message raised when the Next.js server never becomes reachable. -/
def startTimeoutMsg : String := "Next.js failed to start within 60s"

/-- Result of `_start_next_server`: if the port answered on attempt `k` (zero
based) the function returns after `k + 1` one-second sleeps; otherwise, after
all 60 polls, it kills the subprocess and raises. -/
structure StartResult where
  readyAfter : Option Nat
  killed : Bool
  error : Option String
deriving DecidableEq

/-- Model of `_start_next_server`: start `next start -p 3000` and poll the port once per
second, at most 60 times; on timeout kill the subprocess and raise. -/
def _start_next_server (ready : Nat → Bool) : StartResult :=
  match (List.range 60).find? ready with
  | some k => { readyAfter := some (k + 1), killed := false, error := none }
  | none => { readyAfter := none, killed := true, error := some startTimeoutMsg }

/-- The `output` entry of a render configuration (only its `format` name is
inspected by this layer). -/
structure OutputCfg where
  format : Option String
deriving DecidableEq

/-- A render configuration dict as this layer sees it: the optional `output`
entry, plus whether any other keys exist (which decides Python truthiness of
the dict). -/
structure RenderConfig where
  output : Option OutputCfg
  hasOtherKeys : Bool
deriving DecidableEq

/-- Model of `_run_render`: run the render entry script; non-zero exit raises
`RuntimeError` with the last 500 characters of stderr, success yields the
output path `/tmp/output/<job_id>.mp4`. -/
def _run_render (o : RenderOutcome) (_config : RenderConfig) (_audio_path : String)
    (job_id : String) (_callback_url : Option String) : Except String String :=
  match o with
  | .timedOut m => .error m
  | .exited code _stdout stderr =>
    if code ≠ 0 then
      .error ("Render failed (exit " ++ toString code ++ "): " ++ lastChars 500 stderr)
    else
      .ok ("/tmp/output/" ++ job_id ++ ".mp4")

/-- Model of `_copy_to_r2`: copy the rendered MP4 into the mounted bucket and return the
storage key `renders/<job_id>.mp4`; a failed copy raises. -/
def _copy_to_r2 (o : StepOutcome) (_local_path : String) (job_id : String) :
    Except String String :=
  match o with
  | .err m => .error m
  | .ok => .ok ("renders/" ++ job_id ++ ".mp4")

/-- The `output` descriptor embedded in a success callback body. -/
structure OutputDescriptor where
  format : String
  localPath : String
  fileSizeBytes : Nat
  durationSeconds : Nat
deriving DecidableEq

/-- JSON body of one callback PATCH, with `none` for omitted keys. -/
structure CallbackBody where
  status : Option String
  progress : Option Nat
  errorMessage : Option String
  output : Option OutputDescriptor
  currentStage : Option String
deriving DecidableEq

/-- One HTTP PATCH issued by the callback notifier. -/
structure CallbackRequest where
  url : String
  body : CallbackBody
deriving DecidableEq

/-- What the network did to a callback PATCH: an HTTP status code came back, or
the request raised. -/
inductive NetResult where
  | response (code : Nat)
  | netError (msg : String)
deriving DecidableEq

/-- Observable outcome of `_send_callback`: the PATCHes issued (zero or one; the
function never retries) and the exception it let escape (always `none`). -/
structure SendOutcome where
  requestsSent : List CallbackRequest
  raised : Option String
deriving DecidableEq

/-- Model of `_send_callback`: build the status PATCH body and post it to
`<callback_url>/api/render/<job_id>`; a falsy URL is a no-op, and any network
failure or response is swallowed after logging. -/
def _send_callback (net : NetResult) (callback_url : Option String) (job_id : String)
    (status : String) (r2_key : Option String) (error : Option String)
    (progress : Option Nat) : SendOutcome :=
  if !optTruthy callback_url then { requestsSent := [], raised := none }
  else
    let body : CallbackBody := {
      status := if status.isEmpty then none else some status,
      progress := progress,
      errorMessage := if optTruthy error then error else none,
      output :=
        if optTruthy r2_key then
          some { format := "mp4",
                 localPath := "https://renders.etherealflame.studio/" ++ r2_key.getD "",
                 fileSizeBytes := 0,
                 durationSeconds := 0 }
        else none,
      currentStage :=
        if status = "completed" then some "Complete"
        else if status = "failed" then some "Failed"
        else none }
    match net with
    | _ =>
      { requestsSent := [{ url := callback_url.getD "" ++ "/api/render/" ++ job_id,
                           body := body }],
        raised := none }

/-- Model of `_needs_gpu`: the output format name, defaulting to
`flat-1080p-landscape`, contains `4k` or `360`. -/
def _needs_gpu (config : RenderConfig) : Bool :=
  let fmt := ((config.output.getD { format := none }).format).getD "flat-1080p-landscape"
  strContains "4k" fmt || strContains "360" fmt

/-- Observable pipeline events: a `_send_callback` invocation, the Next.js
subprocess being started or killed, and the artifact copy reaching durable
storage under its key. -/
inductive Event where
  | notify (callback_url : Option String) (status : String) (r2_key : Option String)
      (error : Option String) (progress : Option Nat)
  | serverStart
  | serverKill
  | persist (key : String)
deriving DecidableEq

/-- The dict `render_cpu`/`render_gpu` return on success. -/
structure RenderReturn where
  status : String
  r2_key : String
deriving DecidableEq

/-- The shared body of `render_cpu` and `render_gpu` (their Python bodies are
identical; they differ only in container resources, which are not modelled):
run the pipeline stages in order, convert any stage failure into a `failed`
callback before re-raising, and kill the Next.js subprocess on every exit
path (`try`/`except`/`finally`). -/
def render_pipeline (env : Env) (config : RenderConfig) (job_id : String)
    (audio_url audio_base64 callback_url : Option String) :
    List Event × Except String RenderReturn :=
  let ev0 : List Event := [.notify callback_url "rendering" none none (some 5)]
  match _prepare_audio env.audio audio_url audio_base64 job_id with
  | .error e =>
    (ev0 ++ [.notify callback_url "failed" none (some e) none], .error e)
  | .ok audio_path =>
    match (_start_next_server env.ready).readyAfter with
    | none =>
      (ev0 ++ [.serverStart, .serverKill,
               .notify callback_url "failed" none (some startTimeoutMsg) none],
       .error startTimeoutMsg)
    | some _ =>
      let ev1 := ev0 ++ [.serverStart, .notify callback_url "rendering" none none (some 10)]
      match _run_render env.render config audio_path job_id callback_url with
      | .error e =>
        (ev1 ++ [.notify callback_url "failed" none (some e) none, .serverKill], .error e)
      | .ok output_path =>
        match _copy_to_r2 env.copy output_path job_id with
        | .error e =>
          (ev1 ++ [.notify callback_url "failed" none (some e) none, .serverKill], .error e)
        | .ok r2_key =>
          (ev1 ++ [.persist r2_key,
                   .notify callback_url "completed" (some r2_key) none (some 100),
                   .serverKill],
           .ok { status := "completed", r2_key := r2_key })

/-- Model of `render_cpu`: the standard-lane worker (body shared with `render_gpu`). -/
def render_cpu (env : Env) (config : RenderConfig) (job_id : String)
    (audio_url audio_base64 callback_url : Option String) :
    List Event × Except String RenderReturn :=
  render_pipeline env config job_id audio_url audio_base64 callback_url

/-- Model of `render_gpu`: the accelerated-lane worker (body shared with `render_cpu`). -/
def render_gpu (env : Env) (config : RenderConfig) (job_id : String)
    (audio_url audio_base64 callback_url : Option String) :
    List Event × Except String RenderReturn :=
  render_pipeline env config job_id audio_url audio_base64 callback_url

/-- The fields of a `/submit` request body that the endpoint reads, each
`none` when the key is absent. -/
structure SubmitRequest where
  auth_token : Option String
  config : Option RenderConfig
  job_id : Option String
  audio_url : Option String
  audio_base64 : Option String
  callback_url : Option String
  gpu : Option Bool
deriving DecidableEq

/-- Python truthiness of `request.get("config", ...) with an empty-dict default`: an absent key or an
empty dict is falsy. -/
def configTruthy (c : Option RenderConfig) : Bool :=
  match c with
  | none => false
  | some cfg => cfg.output.isSome || cfg.hasOtherKeys

/-- The dict `/submit` returns, with `none` for absent keys (`status` here is
the numeric error status of the 400/401 replies). -/
structure SubmitResponse where
  error : Option String
  status : Option Nat
  call_id : Option String
  gpu : Option Bool
  job_id : Option String
deriving DecidableEq

/-- Arguments of the one `fn.spawn(...)` call `/submit` makes when it accepts
a job. -/
structure SpawnRecord where
  useGpu : Bool
  config : RenderConfig
  job_id : String
  audio_url : Option String
  audio_base64 : Option String
  callback_url : Option String
deriving DecidableEq

/-- Model of `submit`: authenticate against the `MODAL_AUTH_TOKEN` secret, validate the
request, choose the lane, and spawn the render asynchronously. `env_auth_token`
is the configured secret (empty when unset), `now` is `int(time.time())`, and
`new_call_id` is the platform-issued id of the spawned call. Returns the
response dict paired with the spawn that was scheduled, if any. -/
def submit (env_auth_token : String) (now : Nat) (new_call_id : String)
    (request : SubmitRequest) : SubmitResponse × Option SpawnRecord :=
  let auth_token := env_auth_token
  let req_token := request.auth_token.getD ""
  if auth_token = "" ∨ req_token ≠ auth_token then
    ({ error := some "Unauthorized", status := some 401,
       call_id := none, gpu := none, job_id := none }, none)
  else
    let config := request.config.getD { output := none, hasOtherKeys := false }
    let job_id := request.job_id.getD ("modal_" ++ toString now)
    if configTruthy request.config = false then
      ({ error := some "config is required", status := some 400,
         call_id := none, gpu := none, job_id := none }, none)
    else if optTruthy request.audio_url = false ∧ optTruthy request.audio_base64 = false then
      ({ error := some "audio_url or audio_base64 is required", status := some 400,
         call_id := none, gpu := none, job_id := none }, none)
    else
      let use_gpu := request.gpu.getD (_needs_gpu config)
      ({ error := none, status := none,
         call_id := some new_call_id, gpu := some use_gpu, job_id := some job_id },
       some { useGpu := use_gpu, config := config, job_id := job_id,
              audio_url := request.audio_url, audio_base64 := request.audio_base64,
              callback_url := request.callback_url })

/-- All pipeline events a submission ever produces: none when nothing was
spawned, otherwise the trace of the worker the spawn runs. -/
def systemEvents (res : SubmitResponse × Option SpawnRecord) (env : Env) : List Event :=
  match res.2 with
  | none => []
  | some s =>
    (if s.useGpu then
      render_gpu env s.config s.job_id s.audio_url s.audio_base64 s.callback_url
     else
      render_cpu env s.config s.job_id s.audio_url s.audio_base64 s.callback_url).1

/-- What the execution-result store knows about a call id at query time:
the handle does not resolve (`FunctionCall.from_id` raised), or the zero-wait
`fc.get(timeout=0)` returns a result, raises `TimeoutError` (still running),
or raises the worker's error. -/
inductive StoreLookup where
  | invalidHandle (msg : String)
  | completed (r : RenderReturn)
  | running
  | failed (msg : String)
deriving DecidableEq

/-- A JSON value that is a string or a number (the `status` key of the status
endpoint holds `400` in the client-error reply and a state string otherwise). -/
inductive StatusVal where
  | s (v : String)
  | n (v : Nat)
deriving DecidableEq

/-- The dict the status endpoint returns. -/
structure StatusResponse where
  status : StatusVal
  error : Option String
  result : Option RenderReturn
deriving DecidableEq

/-- Model of `status`: reject an empty `call_id` with a 400-style dict, otherwise report
the zero-wait lookup of the execution-result store. -/
def status (store : StoreLookup) (call_id : String) : StatusResponse :=
  if call_id = "" then
    { status := .n 400, error := some "call_id query parameter required", result := none }
  else
    match store with
    | .invalidHandle m => { status := .s "unknown", error := some m, result := none }
    | .completed r => { status := .s "completed", error := none, result := some r }
    | .running => { status := .s "running", error := none, result := none }
    | .failed m => { status := .s "failed", error := some m, result := none }

/-- Whether a trace contains a kill of the Next.js subprocess. -/
def hasKill : List Event → Bool
  | [] => false
  | .serverKill :: _ => true
  | .serverStart :: rest => hasKill rest
  | .persist _ :: rest => hasKill rest
  | .notify _ _ _ _ _ :: rest => hasKill rest

/-- Every start of the Next.js subprocess in the trace is followed by a kill. -/
def killsCoverStarts : List Event → Bool
  | [] => true
  | .serverStart :: rest => hasKill rest && killsCoverStarts rest
  | .serverKill :: rest => killsCoverStarts rest
  | .persist _ :: rest => killsCoverStarts rest
  | .notify _ _ _ _ _ :: rest => killsCoverStarts rest

/-- Scan a trace checking that every `completed` callback invocation happens
after the artifact was persisted under `key` and carries exactly that key;
`persisted` records whether the persist event has already occurred. -/
def completedSafe (key : String) (persisted : Bool) : List Event → Bool
  | [] => true
  | .persist k :: rest => completedSafe key (persisted || (k = key)) rest
  | .notify _ st k _ _ :: rest =>
    if st = "completed" then
      persisted && (k = some key) && completedSafe key persisted rest
    else
      completedSafe key persisted rest
  | .serverStart :: rest => completedSafe key persisted rest
  | .serverKill :: rest => completedSafe key persisted rest

/-- Number of callback invocations in the trace with the given status. -/
def countNotify (st : String) : List Event → Nat
  | [] => 0
  | .notify _ s _ _ _ :: rest => (if s = st then 1 else 0) + countNotify st rest
  | .serverStart :: rest => countNotify st rest
  | .serverKill :: rest => countNotify st rest
  | .persist _ :: rest => countNotify st rest

/-- Whether the trace contains a callback invocation with the given status and
error payload. -/
def hasNotify (st : String) (err : Option String) : List Event → Bool
  | [] => false
  | .notify _ s _ e _ :: rest => ((s = st) && (e = err)) || hasNotify st err rest
  | .serverStart :: rest => hasNotify st err rest
  | .serverKill :: rest => hasNotify st err rest
  | .persist _ :: rest => hasNotify st err rest

/-- Helper: every trace of the shared worker body keeps the subprocess
balanced — each start of the Next.js server is followed by a kill. -/
lemma pipeline_killsCoverStarts (env : Env) (cfg : RenderConfig) (jid : String)
    (au ab cb : Option String) :
    killsCoverStarts (render_pipeline env cfg jid au ab cb).1 = true := by
  obtain ⟨audio, ready, render, copy⟩ := env
  simp only [render_pipeline]
  cases hpa : _prepare_audio audio au ab jid with
  | error e => simp [killsCoverStarts]
  | ok p =>
    cases hns : (_start_next_server ready).readyAfter with
    | none => simp [killsCoverStarts, hasKill]
    | some k =>
      cases hrr : _run_render render cfg p jid cb with
      | error e => simp [hrr, killsCoverStarts, hasKill]
      | ok op =>
        cases copy with
        | err m => simp [hrr, killsCoverStarts, hasKill, _copy_to_r2]
        | ok => simp [hrr, killsCoverStarts, hasKill, _copy_to_r2]

/-- Helper: in every trace of the shared worker body, a `completed` callback
invocation occurs only after the artifact was persisted under
`renders/<job_id>.mp4`, and it carries exactly that key. -/
lemma pipeline_completedSafe (env : Env) (cfg : RenderConfig) (jid : String)
    (au ab cb : Option String) :
    completedSafe ("renders/" ++ jid ++ ".mp4") false
      (render_pipeline env cfg jid au ab cb).1 = true := by
  obtain ⟨audio, ready, render, copy⟩ := env
  simp only [render_pipeline]
  cases hpa : _prepare_audio audio au ab jid with
  | error e => simp [completedSafe]
  | ok p =>
    cases hns : (_start_next_server ready).readyAfter with
    | none => simp [completedSafe]
    | some k =>
      cases hrr : _run_render render cfg p jid cb with
      | error e => simp [hrr, completedSafe]
      | ok op =>
        cases copy with
        | err m => simp [hrr, completedSafe, _copy_to_r2]
        | ok => simp [hrr, completedSafe, _copy_to_r2]

/-- Helper: whenever the shared worker body raises `e`, its trace contains
exactly one `failed` callback invocation, that invocation carries `e`, and no
`completed` callback invocation occurs. -/
lemma pipeline_failed_callbacks (env : Env) (cfg : RenderConfig) (jid : String)
    (au ab cb : Option String) (e : String)
    (h : (render_pipeline env cfg jid au ab cb).2 = .error e) :
    countNotify "failed" (render_pipeline env cfg jid au ab cb).1 = 1 ∧
    hasNotify "failed" (some e) (render_pipeline env cfg jid au ab cb).1 = true ∧
    countNotify "completed" (render_pipeline env cfg jid au ab cb).1 = 0 := by
  obtain ⟨audio, ready, render, copy⟩ := env
  simp only [render_pipeline] at h ⊢
  revert h
  cases hpa : _prepare_audio audio au ab jid with
  | error e0 =>
    intro h
    simp only [Except.error.injEq] at h
    subst h
    simp [countNotify, hasNotify]
  | ok p =>
    cases hns : (_start_next_server ready).readyAfter with
    | none =>
      intro h
      simp only [Except.error.injEq] at h
      subst h
      simp [countNotify, hasNotify]
    | some k =>
      cases hrr : _run_render render cfg p jid cb with
      | error e0 =>
        intro h
        simp only [hrr, Except.error.injEq] at h
        subst h
        simp [hrr, countNotify, hasNotify]
      | ok op =>
        cases hcp : _copy_to_r2 copy op jid with
        | error e0 =>
          intro h
          simp only [hrr, hcp, Except.error.injEq] at h
          subst h
          simp [hrr, hcp, countNotify, hasNotify]
        | ok key =>
          intro h
          simp [hrr, hcp] at h

/-- Helper: the shared worker body never raises the `completed` status; a
`failed` result is what any stage failure produces. -/
lemma pipeline_success_no_failed (env : Env) (cfg : RenderConfig) (jid : String)
    (au ab cb : Option String) (r : RenderReturn)
    (h : (render_pipeline env cfg jid au ab cb).2 = .ok r) :
    countNotify "failed" (render_pipeline env cfg jid au ab cb).1 = 0 := by
  obtain ⟨audio, ready, render, copy⟩ := env
  simp only [render_pipeline] at h ⊢
  revert h
  cases hpa : _prepare_audio audio au ab jid with
  | error e0 => intro h; simp at h
  | ok p =>
    cases hns : (_start_next_server ready).readyAfter with
    | none => intro h; simp at h
    | some k =>
      cases hrr : _run_render render cfg p jid cb with
      | error e0 => intro h; simp [hrr] at h
      | ok op =>
        cases hcp : _copy_to_r2 copy op jid with
        | error e0 => intro h; simp [hrr, hcp] at h
        | ok key => intro h; simp [hrr, hcp, countNotify]

/-- C1: in every run of either worker, a `completed` callback invocation
happens only after the artifact was persisted to durable storage under the
key `renders/<job_id>.mp4`, and the invocation carries exactly that key — a
`completed` callback is never attempted for an artifact that was not
persisted. -/
theorem completed_callback_only_after_persist (env : Env) (cfg : RenderConfig)
    (jid : String) (au ab cb : Option String) :
    completedSafe ("renders/" ++ jid ++ ".mp4") false
      (render_cpu env cfg jid au ab cb).1 = true ∧
    completedSafe ("renders/" ++ jid ++ ".mp4") false
      (render_gpu env cfg jid au ab cb).1 = true :=
  ⟨pipeline_completedSafe env cfg jid au ab cb,
   pipeline_completedSafe env cfg jid au ab cb⟩

/-- C2: if the Next.js port never answers during the 60 one-second polls, the
bootstrap kills the subprocess and raises the startup-timeout error; and on
every exit path of either worker, a started Next.js subprocess is killed
before the worker returns or propagates. -/
theorem next_server_cleanup (ready : Nat → Bool) (env : Env) (cfg : RenderConfig)
    (jid : String) (au ab cb : Option String)
    (h : (List.range 60).all (fun k => !ready k) = true) :
    (_start_next_server ready).killed = true ∧
    (_start_next_server ready).error = some startTimeoutMsg ∧
    (_start_next_server ready).readyAfter = none ∧
    killsCoverStarts (render_cpu env cfg jid au ab cb).1 = true ∧
    killsCoverStarts (render_gpu env cfg jid au ab cb).1 = true := by
  have hfind : (List.range 60).find? ready = none := by
    rw [List.find?_eq_none]
    intro x hx
    have := List.all_eq_true.mp h x hx
    simp at this
    simp [this]
  refine ⟨?_, ?_, ?_, ?_, ?_⟩
  · simp [_start_next_server, hfind]
  · simp [_start_next_server, hfind]
  · simp [_start_next_server, hfind]
  · exact pipeline_killsCoverStarts env cfg jid au ab cb
  · exact pipeline_killsCoverStarts env cfg jid au ab cb

/-- Witness for C2 at a concrete never-ready poll function and a concrete
environment. -/
theorem next_server_cleanup_witness :
    ((List.range 60).all (fun k => !(fun _ => false) k) = true) ∧
    ((_start_next_server (fun _ => false)).killed = true ∧
     (_start_next_server (fun _ => false)).error = some startTimeoutMsg ∧
     (_start_next_server (fun _ => false)).readyAfter = none ∧
     killsCoverStarts (render_cpu ⟨.ok, fun _ => true, .exited 0 "" "", .ok⟩
       { output := none, hasOtherKeys := true } "job-1"
       (some "https://x/a.mp3") none (some "https://cb")).1 = true ∧
     killsCoverStarts (render_gpu ⟨.ok, fun _ => true, .exited 0 "" "", .ok⟩
       { output := none, hasOtherKeys := true } "job-1"
       (some "https://x/a.mp3") none (some "https://cb")).1 = true) :=
  ⟨by decide,
   next_server_cleanup (fun _ => false) ⟨.ok, fun _ => true, .exited 0 "" "", .ok⟩
     { output := none, hasOtherKeys := true } "job-1"
     (some "https://x/a.mp3") none (some "https://cb") (by decide)⟩

/-- C6: whenever either worker's pipeline fails at any stage, exactly one
terminal callback with status `failed` carrying the captured error message is
attempted, no `completed` callback is attempted, and the exception is
re-raised (the worker's result is that same error), so the execution-result
store reports `failed` with that message through the status endpoint. -/
theorem failed_callback_exactly_once (env : Env) (cfg : RenderConfig) (jid : String)
    (au ab cb : Option String) (e : String)
    (h : (render_cpu env cfg jid au ab cb).2 = .error e) :
    countNotify "failed" (render_cpu env cfg jid au ab cb).1 = 1 ∧
    hasNotify "failed" (some e) (render_cpu env cfg jid au ab cb).1 = true ∧
    countNotify "completed" (render_cpu env cfg jid au ab cb).1 = 0 ∧
    (render_gpu env cfg jid au ab cb).2 = .error e ∧
    countNotify "failed" (render_gpu env cfg jid au ab cb).1 = 1 ∧
    hasNotify "failed" (some e) (render_gpu env cfg jid au ab cb).1 = true ∧
    countNotify "completed" (render_gpu env cfg jid au ab cb).1 = 0 ∧
    (status (.failed e) "some-call-id").status = .s "failed" ∧
    (status (.failed e) "some-call-id").error = some e := by
  have hp := pipeline_failed_callbacks env cfg jid au ab cb e h
  exact ⟨hp.1, hp.2.1, hp.2.2, h, hp.1, hp.2.1, hp.2.2,
    by simp [status], by simp [status]⟩

/-- Witness for C6: a concrete run whose audio download raises `boom`. -/
theorem failed_callback_exactly_once_witness :
    ((render_cpu ⟨.err "boom", fun _ => true, .exited 0 "" "", .ok⟩
        { output := none, hasOtherKeys := true } "job-1"
        (some "https://x/a.mp3") none (some "https://cb")).2 = .error "boom") ∧
    (countNotify "failed" (render_cpu ⟨.err "boom", fun _ => true, .exited 0 "" "", .ok⟩
        { output := none, hasOtherKeys := true } "job-1"
        (some "https://x/a.mp3") none (some "https://cb")).1 = 1 ∧
     hasNotify "failed" (some "boom")
        (render_cpu ⟨.err "boom", fun _ => true, .exited 0 "" "", .ok⟩
          { output := none, hasOtherKeys := true } "job-1"
          (some "https://x/a.mp3") none (some "https://cb")).1 = true ∧
     countNotify "completed" (render_cpu ⟨.err "boom", fun _ => true, .exited 0 "" "", .ok⟩
        { output := none, hasOtherKeys := true } "job-1"
        (some "https://x/a.mp3") none (some "https://cb")).1 = 0 ∧
     (render_gpu ⟨.err "boom", fun _ => true, .exited 0 "" "", .ok⟩
        { output := none, hasOtherKeys := true } "job-1"
        (some "https://x/a.mp3") none (some "https://cb")).2 = .error "boom" ∧
     countNotify "failed" (render_gpu ⟨.err "boom", fun _ => true, .exited 0 "" "", .ok⟩
        { output := none, hasOtherKeys := true } "job-1"
        (some "https://x/a.mp3") none (some "https://cb")).1 = 1 ∧
     hasNotify "failed" (some "boom")
        (render_gpu ⟨.err "boom", fun _ => true, .exited 0 "" "", .ok⟩
          { output := none, hasOtherKeys := true } "job-1"
          (some "https://x/a.mp3") none (some "https://cb")).1 = true ∧
     countNotify "completed" (render_gpu ⟨.err "boom", fun _ => true, .exited 0 "" "", .ok⟩
        { output := none, hasOtherKeys := true } "job-1"
        (some "https://x/a.mp3") none (some "https://cb")).1 = 0 ∧
     (status (.failed "boom") "some-call-id").status = .s "failed" ∧
     (status (.failed "boom") "some-call-id").error = some "boom") :=
  ⟨rfl, failed_callback_exactly_once ⟨.err "boom", fun _ => true, .exited 0 "" "", .ok⟩
    { output := none, hasOtherKeys := true } "job-1"
    (some "https://x/a.mp3") none (some "https://cb") "boom" rfl⟩

/-- C7: the callback notifier is total and best-effort — it never lets an
exception escape, it is a no-op when no callback URL is supplied, it sends at
most one request (no retries), and its outcome does not depend on what the
network did to the request, so delivery failures cannot change the job
outcome. -/
theorem callback_best_effort (net : NetResult) (cb : Option String) (jid st : String)
    (k err : Option String) (p : Option Nat) :
    (_send_callback net cb jid st k err p).raised = none ∧
    (_send_callback net cb jid st k err p).requestsSent.length ≤ 1 ∧
    (optTruthy cb = false → (_send_callback net cb jid st k err p).requestsSent = []) ∧
    _send_callback net cb jid st k err p = _send_callback (.response 200) cb jid st k err p := by
  cases hcb : optTruthy cb <;> cases net <;> simp [_send_callback, hcb]

/-- C8: the status endpoint, from one zero-wait store lookup, returns exactly
one of the five reply shapes — the 400 client error precisely when the call
id is empty, `unknown` when the handle does not resolve, and otherwise
`completed` with the result, `running`, or `failed` with the error. -/
theorem status_query_shape (store : StoreLookup) (cid : String) :
    (cid = "" → status store cid =
      { status := .n 400, error := some "call_id query parameter required", result := none }) ∧
    (cid ≠ "" →
      (∀ m, store = .invalidHandle m →
        status store cid = { status := .s "unknown", error := some m, result := none }) ∧
      (∀ r, store = .completed r →
        status store cid = { status := .s "completed", error := none, result := some r }) ∧
      (store = .running →
        status store cid = { status := .s "running", error := none, result := none }) ∧
      (∀ m, store = .failed m →
        status store cid = { status := .s "failed", error := some m, result := none })) ∧
    ((status store cid).status = .n 400 ↔ cid = "") ∧
    ((status store cid).status = .n 400 ∨ (status store cid).status = .s "unknown" ∨
     (status store cid).status = .s "completed" ∨ (status store cid).status = .s "running" ∨
     (status store cid).status = .s "failed") := by
  by_cases hc : cid = "" <;> cases store <;> simp [status, hc]

/-- C4: `/submit` replies with the Unauthorized 401 dict exactly when no
shared secret is configured or the request token differs from it, and on that
rejection nothing is spawned, no handle is returned, and no pipeline event
(hence no callback) ever occurs for the submission. -/
theorem submit_unauthorized_iff (tok : String) (now : Nat) (cid : String)
    (r : SubmitRequest) :
    (((submit tok now cid r).1 =
        { error := some "Unauthorized", status := some 401,
          call_id := none, gpu := none, job_id := none }) ↔
      (tok = "" ∨ r.auth_token.getD "" ≠ tok)) ∧
    ((tok = "" ∨ r.auth_token.getD "" ≠ tok) →
      (submit tok now cid r).2 = none ∧
      (submit tok now cid r).1.call_id = none ∧
      ∀ env, systemEvents (submit tok now cid r) env = []) := by
  by_cases hA : tok = "" ∨ r.auth_token.getD "" ≠ tok
  · exact ⟨⟨fun _ => hA, fun _ => by simp [submit, hA]⟩,
      fun _ => ⟨by simp [submit, hA], by simp [submit, hA],
        fun env => by simp [submit, hA, systemEvents]⟩⟩
  · refine ⟨⟨fun hresp => ?_, fun hA' => absurd hA' hA⟩, fun hA' => absurd hA' hA⟩
    by_cases hc : configTruthy r.config = false
    · simp [submit, hA, hc] at hresp
    · by_cases ha : optTruthy r.audio_url = false ∧ optTruthy r.audio_base64 = false
      · simp [submit, hA, hc, ha] at hresp
      · simp [submit, hA, hc, ha] at hresp

/-- C5: with a valid token, a submission whose configuration is absent (falsy)
or which carries no truthy audio source is rejected with a 400 validation
error, nothing is spawned, no handle is returned, and no pipeline event
(hence no callback) ever occurs for it. -/
theorem submit_validation_rejects (tok : String) (now : Nat) (cid : String)
    (r : SubmitRequest)
    (h1 : tok ≠ "") (h2 : r.auth_token.getD "" = tok)
    (h3 : configTruthy r.config = false ∨
      (optTruthy r.audio_url = false ∧ optTruthy r.audio_base64 = false)) :
    (submit tok now cid r).1.status = some 400 ∧
    (submit tok now cid r).1.error.isSome = true ∧
    (submit tok now cid r).1.call_id = none ∧
    (submit tok now cid r).2 = none ∧
    ∀ env, systemEvents (submit tok now cid r) env = [] := by
  have hA : ¬(tok = "" ∨ r.auth_token.getD "" ≠ tok) := by
    push_neg
    exact ⟨h1, h2⟩
  rcases h3 with hc | ha
  · simp [submit, hA, hc, systemEvents]
  · by_cases hc : configTruthy r.config = false
    · simp [submit, hA, hc, systemEvents]
    · simp [submit, hA, hc, ha, systemEvents]

/-- Witness for C5: a valid token but no configuration at all. -/
theorem submit_validation_rejects_witness :
    (("T" : String) ≠ "" ∧
     (SubmitRequest.mk (some "T") none none none none none none).auth_token.getD "" = "T" ∧
     (configTruthy (SubmitRequest.mk (some "T") none none none none none none).config = false ∨
      (optTruthy (SubmitRequest.mk (some "T") none none none none none none).audio_url = false ∧
       optTruthy (SubmitRequest.mk (some "T") none none none none none none).audio_base64 = false))) ∧
    ((submit "T" 100 "c1" (SubmitRequest.mk (some "T") none none none none none none)).1.status = some 400 ∧
     (submit "T" 100 "c1" (SubmitRequest.mk (some "T") none none none none none none)).1.error.isSome = true ∧
     (submit "T" 100 "c1" (SubmitRequest.mk (some "T") none none none none none none)).1.call_id = none ∧
     (submit "T" 100 "c1" (SubmitRequest.mk (some "T") none none none none none none)).2 = none ∧
     ∀ env, systemEvents (submit "T" 100 "c1" (SubmitRequest.mk (some "T") none none none none none none)) env = []) :=
  ⟨⟨by decide, by decide, Or.inl (by decide)⟩,
   submit_validation_rejects "T" 100 "c1"
     (SubmitRequest.mk (some "T") none none none none none none)
     (by decide) (by decide) (Or.inl (by decide))⟩

/-- Helper: the default format name `flat-1080p-landscape` contains neither
of the accelerated-lane markers. -/
lemma default_format_not_gpu :
    (strContains "4k" "flat-1080p-landscape" || strContains "360" "flat-1080p-landscape") = false := by
  decide

/-- C3: for an accepted submission the selected lane honours an explicit
`gpu` override when present and otherwise is `_needs_gpu` of the
configuration; `_needs_gpu` is true exactly when the declared output format
name contains `4k` or `360`, and is false when the output profile or its
format name is missing. -/
theorem tier_selection (tok : String) (now : Nat) (cid : String) (r : SubmitRequest)
    (h1 : tok ≠ "") (h2 : r.auth_token.getD "" = tok)
    (h3 : configTruthy r.config = true)
    (h4 : (optTruthy r.audio_url || optTruthy r.audio_base64) = true) :
    ((submit tok now cid r).1.gpu =
      some (r.gpu.getD (_needs_gpu (r.config.getD { output := none, hasOtherKeys := false })))) ∧
    ((submit tok now cid r).2.map SpawnRecord.useGpu =
      some (r.gpu.getD (_needs_gpu (r.config.getD { output := none, hasOtherKeys := false })))) ∧
    (∀ c : RenderConfig, _needs_gpu c =
      (strContains "4k" (((c.output.getD { format := none }).format).getD "flat-1080p-landscape") ||
       strContains "360" (((c.output.getD { format := none }).format).getD "flat-1080p-landscape"))) ∧
    (∀ c : RenderConfig, c.output = none → _needs_gpu c = false) ∧
    (∀ c : RenderConfig, ∀ oc : OutputCfg, c.output = some oc → oc.format = none →
      _needs_gpu c = false) := by
  have hA : ¬(tok = "" ∨ r.auth_token.getD "" ≠ tok) := by
    push_neg
    exact ⟨h1, h2⟩
  have hc : ¬(configTruthy r.config = false) := by simp [h3]
  have ha : ¬(optTruthy r.audio_url = false ∧ optTruthy r.audio_base64 = false) := by
    intro hand
    rw [hand.1, hand.2] at h4
    simp at h4
  refine ⟨by simp [submit, hA, hc, ha], by simp [submit, hA, hc, ha], fun c => rfl, ?_, ?_⟩
  · intro c hc0
    simp [_needs_gpu, hc0, default_format_not_gpu]
  · intro c oc hc0 hf
    simp [_needs_gpu, hc0, hf, default_format_not_gpu]

/-- Witness for C3: a 4k-360 format with no override resolves to the GPU lane. -/
theorem tier_selection_witness :
    (("T" : String) ≠ "" ∧
     (SubmitRequest.mk (some "T") (some { output := some { format := some "4k-360" }, hasOtherKeys := false })
        none (some "https://x/a.mp3") none none none).auth_token.getD "" = "T" ∧
     configTruthy (SubmitRequest.mk (some "T") (some { output := some { format := some "4k-360" }, hasOtherKeys := false })
        none (some "https://x/a.mp3") none none none).config = true ∧
     (optTruthy (SubmitRequest.mk (some "T") (some { output := some { format := some "4k-360" }, hasOtherKeys := false })
        none (some "https://x/a.mp3") none none none).audio_url ||
      optTruthy (SubmitRequest.mk (some "T") (some { output := some { format := some "4k-360" }, hasOtherKeys := false })
        none (some "https://x/a.mp3") none none none).audio_base64) = true) ∧
    ((submit "T" 100 "c1" (SubmitRequest.mk (some "T")
        (some { output := some { format := some "4k-360" }, hasOtherKeys := false })
        none (some "https://x/a.mp3") none none none)).1.gpu =
      some ((SubmitRequest.mk (some "T") (some { output := some { format := some "4k-360" }, hasOtherKeys := false })
        none (some "https://x/a.mp3") none none none).gpu.getD
          (_needs_gpu ((SubmitRequest.mk (some "T") (some { output := some { format := some "4k-360" }, hasOtherKeys := false })
            none (some "https://x/a.mp3") none none none).config.getD { output := none, hasOtherKeys := false }))) ∧
     ((submit "T" 100 "c1" (SubmitRequest.mk (some "T")
        (some { output := some { format := some "4k-360" }, hasOtherKeys := false })
        none (some "https://x/a.mp3") none none none)).2.map SpawnRecord.useGpu =
      some ((SubmitRequest.mk (some "T") (some { output := some { format := some "4k-360" }, hasOtherKeys := false })
        none (some "https://x/a.mp3") none none none).gpu.getD
          (_needs_gpu ((SubmitRequest.mk (some "T") (some { output := some { format := some "4k-360" }, hasOtherKeys := false })
            none (some "https://x/a.mp3") none none none).config.getD { output := none, hasOtherKeys := false })))) ∧
     (∀ c : RenderConfig, _needs_gpu c =
      (strContains "4k" (((c.output.getD { format := none }).format).getD "flat-1080p-landscape") ||
       strContains "360" (((c.output.getD { format := none }).format).getD "flat-1080p-landscape"))) ∧
     (∀ c : RenderConfig, c.output = none → _needs_gpu c = false) ∧
     (∀ c : RenderConfig, ∀ oc : OutputCfg, c.output = some oc → oc.format = none →
      _needs_gpu c = false)) :=
  ⟨⟨by decide, by decide, by decide, by decide⟩,
   tier_selection "T" 100 "c1"
     (SubmitRequest.mk (some "T") (some { output := some { format := some "4k-360" }, hasOtherKeys := false })
       none (some "https://x/a.mp3") none none none)
     (by decide) (by decide) (by decide) (by decide)⟩

/-- C10: a submission carrying both audio sources is accepted (not rejected),
audio acquisition then takes the URL branch — its outcome is independent of
the inline payload — and on success the audio lands at
`/tmp/audio/<job_id><ext>` where `ext` is the URL's suffix, `.mp3` when the
URL has none. -/
theorem both_audio_sources_url_wins (tok : String) (now : Nat) (cid : String)
    (r : SubmitRequest) (u b : String)
    (h1 : tok ≠ "") (h2 : r.auth_token.getD "" = tok) (h3 : configTruthy r.config = true)
    (h4 : r.audio_url = some u) (h5 : u ≠ "") (_h6 : r.audio_base64 = some b) :
    ((submit tok now cid r).1.error = none ∧ (submit tok now cid r).1.status = none ∧
     (submit tok now cid r).2.isSome = true) ∧
    (∀ o : StepOutcome, ∀ jid : String, ∀ ab2 : Option String,
      _prepare_audio o (some u) (some b) jid = _prepare_audio o (some u) ab2 jid) ∧
    (∀ jid : String, _prepare_audio .ok (some u) (some b) jid =
      .ok ("/tmp/audio/" ++ jid ++
        (if (path_suffix u).isEmpty then ".mp3" else path_suffix u))) := by
  have hA : ¬(tok = "" ∨ r.auth_token.getD "" ≠ tok) := by
    push_neg
    exact ⟨h1, h2⟩
  have hc : ¬(configTruthy r.config = false) := by simp [h3]
  have hu : optTruthy (some u) = true := by
    have hemp : u.isEmpty = false := by
      rw [Bool.eq_false_iff]
      intro hx
      exact h5 ((String.isEmpty_iff u).mp hx)
    simp [optTruthy, hemp]
  have ha : ¬(optTruthy r.audio_url = false ∧ optTruthy r.audio_base64 = false) := by
    rw [h4]
    simp [hu]
  refine ⟨⟨by simp [submit, hA, hc, ha], by simp [submit, hA, hc, ha],
    by simp [submit, hA, hc, ha]⟩, ?_, ?_⟩
  · intro o jid ab2
    simp [_prepare_audio, hu]
  · intro jid
    simp [_prepare_audio, hu]

/-- Witness for C10: both a URL with an `.mp3` suffix and an inline payload. -/
theorem both_audio_sources_url_wins_witness :
    (("T" : String) ≠ "" ∧
     (SubmitRequest.mk (some "T") (some { output := none, hasOtherKeys := true })
        none (some "https://x/a.mp3") (some "QUJD") none none).auth_token.getD "" = "T" ∧
     configTruthy (SubmitRequest.mk (some "T") (some { output := none, hasOtherKeys := true })
        none (some "https://x/a.mp3") (some "QUJD") none none).config = true ∧
     (SubmitRequest.mk (some "T") (some { output := none, hasOtherKeys := true })
        none (some "https://x/a.mp3") (some "QUJD") none none).audio_url = some "https://x/a.mp3" ∧
     ("https://x/a.mp3" : String) ≠ "" ∧
     (SubmitRequest.mk (some "T") (some { output := none, hasOtherKeys := true })
        none (some "https://x/a.mp3") (some "QUJD") none none).audio_base64 = some "QUJD") ∧
    (((submit "T" 100 "c1" (SubmitRequest.mk (some "T") (some { output := none, hasOtherKeys := true })
        none (some "https://x/a.mp3") (some "QUJD") none none)).1.error = none ∧
      (submit "T" 100 "c1" (SubmitRequest.mk (some "T") (some { output := none, hasOtherKeys := true })
        none (some "https://x/a.mp3") (some "QUJD") none none)).1.status = none ∧
      (submit "T" 100 "c1" (SubmitRequest.mk (some "T") (some { output := none, hasOtherKeys := true })
        none (some "https://x/a.mp3") (some "QUJD") none none)).2.isSome = true) ∧
     (∀ o : StepOutcome, ∀ jid : String, ∀ ab2 : Option String,
       _prepare_audio o (some "https://x/a.mp3") (some "QUJD") jid =
       _prepare_audio o (some "https://x/a.mp3") ab2 jid) ∧
     (∀ jid : String, _prepare_audio .ok (some "https://x/a.mp3") (some "QUJD") jid =
       .ok ("/tmp/audio/" ++ jid ++
         (if (path_suffix "https://x/a.mp3").isEmpty then ".mp3"
          else path_suffix "https://x/a.mp3")))) :=
  ⟨⟨by decide, by decide, by decide, by decide, by decide, by decide⟩,
   both_audio_sources_url_wins "T" 100 "c1"
     (SubmitRequest.mk (some "T") (some { output := none, hasOtherKeys := true })
       none (some "https://x/a.mp3") (some "QUJD") none none)
     "https://x/a.mp3" "QUJD"
     (by decide) (by decide) (by decide) (by decide) (by decide) (by decide)⟩

/-- First request of the C9 collision pair: no caller job id, audio `a.mp3`. -/
def collisionReqA : SubmitRequest :=
  { auth_token := some "T", config := some { output := none, hasOtherKeys := true },
    job_id := none, audio_url := some "https://x/a.mp3", audio_base64 := none,
    callback_url := none, gpu := some false }

/-- Second request of the C9 collision pair: no caller job id, audio `b.mp3`. -/
def collisionReqB : SubmitRequest :=
  { auth_token := some "T", config := some { output := none, hasOtherKeys := true },
    job_id := none, audio_url := some "https://x/b.mp3", audio_base64 := none,
    callback_url := none, gpu := some false }

/-- C9 counterexample: two distinct accepted submissions in the same second
(`int(time.time()) = 100`), neither supplying a job identifier, both resolve
to the job identifier `modal_100` — system-generated identifiers are not
unique per submission. -/
theorem job_id_collision :
    collisionReqA ≠ collisionReqB ∧
    (submit "T" 100 "c1" collisionReqA).2.isSome = true ∧
    (submit "T" 100 "c2" collisionReqB).2.isSome = true ∧
    (submit "T" 100 "c1" collisionReqA).1.job_id = some "modal_100" ∧
    (submit "T" 100 "c2" collisionReqB).1.job_id = some "modal_100" :=
  ⟨by decide, by decide, by decide, by decide, by decide⟩

/-- C9 amended: every accepted submission's job identifier is the caller's
one when supplied and otherwise `modal_` followed by the submission second,
so identifiers without a caller-supplied id depend only on the timestamp and
same-second submissions collide; uniqueness per submission is not
guaranteed. -/
theorem submit_job_id_generation (tok : String) (now : Nat) (cid : String)
    (r : SubmitRequest) (s : SpawnRecord)
    (h : (submit tok now cid r).2 = some s) :
    s.job_id = r.job_id.getD ("modal_" ++ toString now) ∧
    (submit tok now cid r).1.job_id = some (r.job_id.getD ("modal_" ++ toString now)) ∧
    (r.job_id = none → s.job_id = "modal_" ++ toString now) := by
  by_cases hA : tok = "" ∨ r.auth_token.getD "" ≠ tok
  · simp [submit, hA] at h
  · by_cases hc : configTruthy r.config = false
    · simp [submit, hA, hc] at h
    · by_cases ha : optTruthy r.audio_url = false ∧ optTruthy r.audio_base64 = false
      · simp [submit, hA, hc, ha] at h
      · simp only [submit, if_neg hA, if_neg hc, if_neg ha, Option.some.injEq] at h
        rw [← h]
        exact ⟨rfl, by simp [submit, hA, hc, ha], fun hj => by simp [hj]⟩

/-- Witness for the amended C9 at the first collision request. -/
theorem submit_job_id_generation_witness :
    ((submit "T" 100 "c1" collisionReqA).2 =
      some { useGpu := false, config := { output := none, hasOtherKeys := true },
             job_id := "modal_100", audio_url := some "https://x/a.mp3",
             audio_base64 := none, callback_url := none }) ∧
    (SpawnRecord.mk false { output := none, hasOtherKeys := true } "modal_100"
        (some "https://x/a.mp3") none none).job_id =
      collisionReqA.job_id.getD ("modal_" ++ toString 100) ∧
    ((submit "T" 100 "c1" collisionReqA).1.job_id =
      some (collisionReqA.job_id.getD ("modal_" ++ toString 100))) ∧
    (collisionReqA.job_id = none →
      (SpawnRecord.mk false { output := none, hasOtherKeys := true } "modal_100"
        (some "https://x/a.mp3") none none).job_id = "modal_" ++ toString 100) :=
  ⟨by decide,
   (submit_job_id_generation "T" 100 "c1" collisionReqA
     (SpawnRecord.mk false { output := none, hasOtherKeys := true } "modal_100"
       (some "https://x/a.mp3") none none) (by decide)).1,
   (submit_job_id_generation "T" 100 "c1" collisionReqA
     (SpawnRecord.mk false { output := none, hasOtherKeys := true } "modal_100"
       (some "https://x/a.mp3") none none) (by decide)).2.1,
   (submit_job_id_generation "T" 100 "c1" collisionReqA
     (SpawnRecord.mk false { output := none, hasOtherKeys := true } "modal_100"
       (some "https://x/a.mp3") none none) (by decide)).2.2⟩

end EtherealFlame

-- sanity examples (concrete evaluation of the embedded helpers)
example : EtherealFlame.strContains "4k" "4k-360" = true := by decide
example : EtherealFlame.strContains "4k" "flat-1080p-landscape" = false := by decide
example : EtherealFlame.path_suffix "https://x/a.mp3" = ".mp3" := by decide
example : EtherealFlame.path_suffix "https://x/audio" = "" := by decide
example : EtherealFlame.path_suffix "https://x/archive.tar.gz" = ".gz" := by decide
example : EtherealFlame._prepare_audio .ok (some "https://x/a.wav") none "j1" =
    .ok "/tmp/audio/j1.wav" := rfl
example : EtherealFlame._prepare_audio .ok none (some "QUJD") "j1" =
    .ok "/tmp/audio/j1.mp3" := rfl
example : EtherealFlame._start_next_server (fun _ => false) =
    { readyAfter := none, killed := true, error := some EtherealFlame.startTimeoutMsg } := by
  decide
example : EtherealFlame._start_next_server (fun k => k = 3) =
    { readyAfter := some 4, killed := false, error := none } := by decide
example : EtherealFlame.lastChars 3 "abcdef" = "def" := by decide
